import Mathlib

/-!
Verification development for the `analyzer` repository (Solidity static analyzer).

This file gives a shallow embedding, in Lean, of the core of the analyzer:
the AST node model (`src/parser/solidity.ts`, `src/types/common.ts`), the
traversal utilities (`src/utils/astUtils.ts`), the security rules
(`src/rules/securityRules.ts`), the rule engine
(`src/analyzer/ruleEngine.ts`) and the result aggregation
(`calculateStats` / issue concatenation in the CLI analysis module and
`src/analyzer/combinedAnalyzer.ts`), followed by theorems settling the
specification claims about these components.

Conventions of the embedding:
* JavaScript exceptions are modelled with `Except String`: a function that can
  throw returns `Except String α`, a `throw` is `.error msg`, and code that
  does not catch propagates the error monadically (exactly as an uncaught JS
  exception aborts the enclosing call).
* JS `undefined`/`null` fields are modelled with `Option`.
* JS `Array.prototype.sort` is stable (ECMA-262) and the comparator used by
  the reentrancy rule is consistent (it is derived from a (line, column) key),
  so `.sort(cmp)` is modelled by `List.mergeSort` with `le a b := cmp a b ≤ 0`,
  which is the stable sort of the list.
* Object identity (`Array.prototype.includes` uses reference equality) is
  modelled by structural equality on nodes; the node sets handled by the
  reentrancy rule are collections of distinct subtrees of one function body.
-/

/-- Severity enum of `src/types/common.ts`:
`type Severity = "critical" | "high" | "medium" | "low" | "info"`. -/
inductive Severity : Type where
  | critical : Severity
  | high : Severity
  | medium : Severity
  | low : Severity
  | info : Severity
deriving DecidableEq, Repr

/-- The `location` field of an `Issue` (`src/types/rules.ts`):
`location?: { line: number | null; file: string }`.  `none` for `line`
models JS `null`. -/
structure IssueLocation : Type where
  line : Option Nat
  file : String
deriving DecidableEq, Repr

/-- `Issue` from `src/types/rules.ts` (the shape produced by the security
rules and consumed by the rule engine).  Optional JS fields are `Option`
with default `none`. -/
structure Issue : Type where
  id : String
  title : Option String := none
  description : String
  message : Option String := none
  line : Option Nat := none
  column : Option Nat := none
  severity : Severity
  canAutoFix : Option Bool := none
  suggestions : Option (List String) := none
  location : Option IssueLocation := none
  code : Option String := none
deriving DecidableEq, Repr

/-- Source position (`loc.start` / `loc.end` of the parser AST). -/
structure SrcPos : Type where
  line : Nat
  column : Nat
deriving DecidableEq, Repr

/-- Source span (the parser's `loc` object); `stop` is the JS field `end`
(a Lean keyword). -/
structure SrcLoc : Type where
  start : SrcPos
  stop : SrcPos
deriving DecidableEq, Repr

mutual
/-- AST node (`ASTNode` of `src/parser/solidity.ts`, an open object
`{ type: string; [key: string]: any }`).  The constructor carries exactly the
properties the embedded code reads: the scalar fields `type`, `name`,
`visibility`, `memberName`, `operator`, the location metadata `loc` / `range`,
and the object-valued properties `expression`, `parent`, `typeName`,
`modifiers`, `parameters`, `body`, `subNodes`.  The auxiliary mutual types
stand for `Option ASTNode` / `List ASTNode` (Lean's derived `DecidableEq`
needs the nesting unfolded into a mutual block). -/
inductive ASTNode : Type where
  | mk : (type : String) → (name : Option String) → (visibility : Option String) →
      (memberName : Option String) → (operator : Option String) →
      (loc : Option SrcLoc) → (range : Option (Nat × Nat)) →
      (expression : ASTNodeOpt) → (parent : ASTNodeOpt) →
      (typeName : ASTNodeOpt) → (modifiers : ASTNodeListOpt) →
      (parameters : ASTNodeListOpt) → (body : ASTNodeList) →
      (subNodes : ASTNodeList) → ASTNode
/-- An optional child node (models an object-valued property that may be
absent). -/
inductive ASTNodeOpt : Type where
  | none : ASTNodeOpt
  | some : ASTNode → ASTNodeOpt
/-- A list of child nodes (models an array-valued property). -/
inductive ASTNodeList : Type where
  | nil : ASTNodeList
  | cons : ASTNode → ASTNodeList → ASTNodeList
/-- An optional list of child nodes. -/
inductive ASTNodeListOpt : Type where
  | none : ASTNodeListOpt
  | some : ASTNodeList → ASTNodeListOpt
end

deriving instance DecidableEq for ASTNode

/-- Convert the mutual child-list representation to an ordinary list. -/
def ASTNodeList.toList : ASTNodeList → List ASTNode
  | .nil => []
  | .cons n rest => n :: rest.toList

/-- Build the mutual child-list representation from an ordinary list. -/
def ASTNodeList.ofList : List ASTNode → ASTNodeList
  | [] => .nil
  | n :: rest => .cons n (ASTNodeList.ofList rest)

/-- Convert the mutual optional-node representation to `Option`. -/
def ASTNodeOpt.toOption : ASTNodeOpt → Option ASTNode
  | .none => Option.none
  | .some n => Option.some n

/-- Convert the mutual optional-list representation to `Option (List _)`. -/
def ASTNodeListOpt.toOption : ASTNodeListOpt → Option (List ASTNode)
  | .none => Option.none
  | .some l => Option.some l.toList

/-- The `type` tag of a node. -/
def ASTNode.type : ASTNode → String
  | .mk t _ _ _ _ _ _ _ _ _ _ _ _ _ => t

/-- The optional `name` property (absent on unnamed functions such as
constructors and fallback functions). -/
def ASTNode.name : ASTNode → Option String
  | .mk _ n _ _ _ _ _ _ _ _ _ _ _ _ => n

/-- The optional `visibility` property of function definitions. -/
def ASTNode.visibility : ASTNode → Option String
  | .mk _ _ v _ _ _ _ _ _ _ _ _ _ _ => v

/-- The optional `memberName` property of member-access expressions. -/
def ASTNode.memberName : ASTNode → Option String
  | .mk _ _ _ m _ _ _ _ _ _ _ _ _ _ => m

/-- The optional `operator` property of binary operations. -/
def ASTNode.operator : ASTNode → Option String
  | .mk _ _ _ _ o _ _ _ _ _ _ _ _ _ => o

/-- The optional `loc` source span. -/
def ASTNode.loc : ASTNode → Option SrcLoc
  | .mk _ _ _ _ _ l _ _ _ _ _ _ _ _ => l

/-- The optional `range` character span. -/
def ASTNode.range : ASTNode → Option (Nat × Nat)
  | .mk _ _ _ _ _ _ r _ _ _ _ _ _ _ => r

/-- The optional `expression` child. -/
def ASTNode.expression : ASTNode → Option ASTNode
  | .mk _ _ _ _ _ _ _ e _ _ _ _ _ _ => e.toOption

/-- The optional `parent` back-pointer read by some rules.  The parser's
output has no own `parent` property, so the traversal below does not descend
into it. -/
def ASTNode.parent : ASTNode → Option ASTNode
  | .mk _ _ _ _ _ _ _ _ p _ _ _ _ _ => p.toOption

/-- The optional `typeName` child of parameter declarations. -/
def ASTNode.typeName : ASTNode → Option ASTNode
  | .mk _ _ _ _ _ _ _ _ _ t _ _ _ _ => t.toOption

/-- The optional `modifiers` array of function definitions. -/
def ASTNode.modifiers : ASTNode → Option (List ASTNode)
  | .mk _ _ _ _ _ _ _ _ _ _ m _ _ _ => m.toOption

/-- The optional parameter list; models the source's
`functionNode.parameters?.parameters` access path. -/
def ASTNode.parameters : ASTNode → Option (List ASTNode)
  | .mk _ _ _ _ _ _ _ _ _ _ _ p _ _ => p.toOption

/-- The `body` child array. -/
def ASTNode.body : ASTNode → List ASTNode
  | .mk _ _ _ _ _ _ _ _ _ _ _ _ b _ => b.toList

/-- The `subNodes` child array of contract definitions. -/
def ASTNode.subNodes : ASTNode → List ASTNode
  | .mk _ _ _ _ _ _ _ _ _ _ _ _ _ s => s.toList

/-! ### JS string primitives

Models of the ECMAScript built-ins used by the rules, given by their
specified behaviour. -/

/-- `String.prototype.includes`: substring containment. -/
def strIncludes (s sub : String) : Bool :=
  (List.range (s.length + 1)).any (fun i => sub.toList.isPrefixOf (s.toList.drop i))

/-- `String.prototype.indexOf(sub, start)`: index of the first occurrence of
`sub` at or after `start`, or `-1`. -/
def jsIndexOfFrom (s sub : String) (start : Int) : Int :=
  match (List.range (s.length + 1)).find?
      (fun (i : Nat) => decide (start ≤ (i : Int)) && sub.toList.isPrefixOf (s.toList.drop i)) with
  | Option.some i => (i : Int)
  | Option.none => -1

/-- `String.prototype.indexOf(sub)`. -/
def jsIndexOf (s sub : String) : Int :=
  jsIndexOfFrom s sub 0

/-- `String.prototype.substring(a, b)`: both arguments are clamped to
`[0, length]` and swapped when `a > b`. -/
def jsSubstring (s : String) (a b : Int) : String :=
  let len := s.length
  let a' := min (max a 0).toNat len
  let b' := min (max b 0).toNat len
  let lo := min a' b'
  let hi := max a' b'
  String.mk ((s.toList.drop lo).take (hi - lo))

/-- `String.prototype.split(sep).length` for counting lines, as used by the
ERC20 rule: number of separator occurrences plus one, via `String.splitOn`. -/
def jsSplitCount (s sep : String) : Nat :=
  (s.splitOn sep).length

/-! ### astUtils (`src/utils/astUtils.ts`) -/

mutual
/-- The recursive `traverse` closure of `findNodes`: pre-order walk that
collects every node whose `type` equals the requested tag, descending into
the object- and array-valued own properties of parser nodes (`expression`,
`typeName`, `modifiers`, `parameters`, `body`, `subNodes`).  Parser output
has no own `parent` property, so `parent` is not traversed; the `loc` and
`range` sub-objects have no `type` property and can never be collected, so
descending into them is observationally a no-op and is omitted. -/
def findNodesGo (t : String) : ASTNode → List ASTNode
  | .mk ty nm vis mem op loc rg expr par tyn mods params body subs =>
      (if ty = t
        then [ASTNode.mk ty nm vis mem op loc rg expr par tyn mods params body subs]
        else [])
      ++ findNodesOpt t expr ++ findNodesOpt t tyn
      ++ findNodesListOpt t mods ++ findNodesListOpt t params
      ++ findNodesList t body ++ findNodesList t subs
/-- `findNodes` traversal over an optional child. -/
def findNodesOpt (t : String) : ASTNodeOpt → List ASTNode
  | .none => []
  | .some n => findNodesGo t n
/-- `findNodes` traversal over a child array. -/
def findNodesList (t : String) : ASTNodeList → List ASTNode
  | .nil => []
  | .cons n rest => findNodesGo t n ++ findNodesList t rest
/-- `findNodes` traversal over an optional child array. -/
def findNodesListOpt (t : String) : ASTNodeListOpt → List ASTNode
  | .none => []
  | .some l => findNodesList t l
end

/-- `findNodes(ast, type)` from `src/utils/astUtils.ts`: collects the nodes
whose `type` tag is strictly equal (`===`) to the `type` argument.  There is
no wildcard handling: a query for `"*"` only matches nodes whose tag is the
literal string `"*"`. -/
def findNodes (ast : ASTNode) (type : String) : List ASTNode :=
  findNodesGo type ast

/-- `getNodeLineNumber` from `src/utils/astUtils.ts`: the starting line when
`loc` is present, otherwise `null`. -/
def getNodeLineNumber (node : ASTNode) : Option Nat :=
  match node.loc with
  | Option.some l => Option.some l.start.line
  | Option.none => Option.none

/-- `getNodeText` from `src/utils/astUtils.ts`: the source slice
`source.substring(range[0], range[1])` when both `loc` and `range` are
present, otherwise the empty string. -/
def getNodeText (node : ASTNode) (source : String) : String :=
  match node.loc, node.range with
  | Option.some _, Option.some r => jsSubstring source (r.1 : Int) (r.2 : Int)
  | _, _ => ""

/-! ### Reentrancy pattern detector (`src/rules/securityRules.ts`, SEC-001) -/

/-- `a.loc?.start.line || 0` of the sort comparator. -/
def startLine0 (n : ASTNode) : Nat :=
  (n.loc.map (fun l => l.start.line)).getD 0

/-- `a.loc?.start.column || 0` of the sort comparator. -/
def startCol0 (n : ASTNode) : Nat :=
  (n.loc.map (fun l => l.start.column)).getD 0

/-- The comparator passed to `.sort` in `checkReentrancyPattern`: difference
of columns when the lines agree, difference of lines otherwise. -/
def sortCmp (a b : ASTNode) : Int :=
  if startLine0 a = startLine0 b then (startCol0 a : Int) - (startCol0 b : Int)
  else (startLine0 a : Int) - (startLine0 b : Int)

/-- Boolean order induced by `sortCmp`; `List.mergeSort` with this relation
is the stable sort that `Array.prototype.sort` performs with the comparator. -/
def sortLe (a b : ASTNode) : Bool :=
  sortCmp a b ≤ 0

/-- The filter `(node) => node.loc && node.loc.start` (in the model `start`
is always present inside a present `loc`). -/
def hasStartLoc (n : ASTNode) : Bool :=
  n.loc.isSome

/-- The `nodesByPosition` intermediate of `checkReentrancyPattern`: external
calls and state changes merged (calls first), nodes without location dropped,
then stable-sorted by (line, column). -/
def nodesByPosition (externalCalls stateChanges : List ASTNode) : List ASTNode :=
  ((externalCalls ++ stateChanges).filter hasStartLoc).mergeSort sortLe

/-- Inner loop of the scan: `for j from i+1: if stateChanges.includes(nodesByPosition[j])`. -/
def anyStateChangeAfter (stateChanges rest : List ASTNode) : Bool :=
  rest.any (fun n => stateChanges.contains n)

/-- Outer scan of `checkReentrancyPattern`: find an index `i` holding an
external call such that some later index holds a state change.  The source
loop returns the (position-independent) finding at the first such pair, so
the list result is determined by this Boolean. -/
def hazardScan (externalCalls stateChanges : List ASTNode) : List ASTNode → Bool
  | [] => false
  | x :: rest =>
      (externalCalls.contains x && anyStateChangeAfter stateChanges rest)
      || hazardScan externalCalls stateChanges rest

/-- The single finding built by `checkReentrancyPattern` (lines 76–96 of
`securityRules.ts`); note `line: getNodeLineNumber(functionNode) || 0`. -/
def reentrancyIssue (functionNode : ASTNode) (sourceCode filePath : String) : Issue :=
  { id := "SEC-001",
    description := "Reentrancy vulnerability: state variables are modified after an external call",
    severity := Severity.high,
    location := Option.some
      { line := Option.some ((getNodeLineNumber functionNode).getD 0), file := filePath },
    code := Option.some (getNodeText functionNode sourceCode),
    suggestions := Option.some
      ["Follow the Checks-Effects-Interactions pattern: update state before making external calls",
       "Consider using a reentrancy guard modifier like \x27nonReentrant\x27"] }

/-- `checkReentrancyPattern` from `securityRules.ts`: merge and sort the two
node sets by textual position and return the single reentrancy finding if
some external call is followed by some state change. -/
def checkReentrancyPattern (externalCalls stateChanges : List ASTNode)
    (functionNode : ASTNode) (sourceCode filePath : String) : List Issue :=
  if hazardScan externalCalls stateChanges (nodesByPosition externalCalls stateChanges)
  then [reentrancyIssue functionNode sourceCode filePath]
  else []

/-- Modelled from the spec: `findExternalCalls` lives in
`src/utils/vulnerabilityUtils`, which is not part of the source tree (only
its importer `securityRules.ts` is).  Per §4.4 it gathers, from one function
body, the call expressions recognized as leaving the contract's trust
boundary (low-level call/send/transfer member-access forms). -/
def findExternalCalls (functionNode : ASTNode) : List ASTNode :=
  (findNodes functionNode "FunctionCall").filter (fun n =>
    match n.expression with
    | Option.some e =>
        e.type = "MemberAccess" &&
          (e.memberName = Option.some "call" || e.memberName = Option.some "send"
            || e.memberName = Option.some "transfer")
    | Option.none => false)

/-- Modelled from the spec: `findStateChanges` lives in
`src/utils/vulnerabilityUtils`, which is not part of the source tree.  Per
§4.4 it gathers the assignment expressions targeting persistent state inside
one function body. -/
def findStateChanges (functionNode : ASTNode) : List ASTNode :=
  findNodes functionNode "Assignment"
    ++ (findNodes functionNode "BinaryOperation").filter
        (fun n => n.operator = Option.some "=")

/-- `reentrancyRule.detect`: only function definitions are checked; the check
is skipped when either gathered set is empty. -/
def reentrancyDetect (node : ASTNode) (sourceCode filePath : String) : List Issue :=
  if node.type ≠ "FunctionDefinition" then []
  else
    let externalCalls := findExternalCalls node
    let stateChanges := findStateChanges node
    if externalCalls.length = 0 || stateChanges.length = 0 then []
    else checkReentrancyPattern externalCalls stateChanges node sourceCode filePath

/-! ### The other security rules of `securityRules.ts` -/

/-- `uncheckedCallsRule.detect` (SEC-002). -/
def uncheckedCallsDetect (node : ASTNode) (sourceCode filePath : String) : List Issue :=
  if node.type ≠ "FunctionCall" then []
  else match node.expression with
  | Option.none => []
  | Option.some memberAccess =>
    if memberAccess.type ≠ "MemberAccess" then []
    else
      let isCallOrSend : Bool := match memberAccess.memberName with
        | Option.some m => ["call", "send"].contains m
        | Option.none => false
      if ¬ isCallOrSend then []
      else
      let report : List Issue :=
        [{ id := "SEC-002",
           description := "Return value of \x27"
             ++ (memberAccess.memberName.getD "undefined") ++ "\x27 is not checked",
           severity := Severity.medium,
           location := Option.some { line := getNodeLineNumber node, file := filePath },
           code := Option.some (getNodeText node sourceCode),
           suggestions := Option.some
             ["Check the return value with \x27require(succeeded, \"Message\")\x27 or store it in a variable and verify it",
              "For ETH transfers, consider using \x27transfer()\x27 instead which automatically reverts on failure"] }]
      match node.parent with
      | Option.some parent =>
          if ["IfStatement", "Assignment", "VariableDeclaration"].contains parent.type
          then [] else report
      | Option.none => report

/-- `dangerousFunctionsRule.detect` (SEC-003): three independent pushes. -/
def dangerousFunctionsDetect (node : ASTNode) (sourceCode filePath : String) : List Issue :=
  let selfdestructIssues : List Issue :=
    if node.type = "FunctionCall" &&
        (match node.expression with
          | Option.some e => e.type = "Identifier" && e.name = Option.some "selfdestruct"
          | Option.none => false)
    then [{ id := "SEC-003-SELFDESTRUCT",
            description := "Use of selfdestruct can permanently destroy contracts",
            severity := Severity.high,
            location := Option.some { line := getNodeLineNumber node, file := filePath },
            code := Option.some (getNodeText node sourceCode),
            suggestions := Option.some
              ["Consider using a more controlled deactivation mechanism instead of selfdestruct"] }]
    else []
  let delegatecallIssues : List Issue :=
    if node.type = "FunctionCall" &&
        (match node.expression with
          | Option.some e => e.type = "MemberAccess" && e.memberName = Option.some "delegatecall"
          | Option.none => false)
    then [{ id := "SEC-003-DELEGATECALL",
            description := "Use of delegatecall can lead to context manipulation vulnerabilities",
            severity := Severity.high,
            location := Option.some { line := getNodeLineNumber node, file := filePath },
            code := Option.some (getNodeText node sourceCode),
            suggestions := Option.some
              ["Ensure the target of delegatecall is trusted and can\x27t be manipulated by attackers"] }]
    else []
  let assemblyIssues : List Issue :=
    if node.type = "InlineAssemblyStatement"
    then [{ id := "SEC-003-ASSEMBLY",
            description := "Use of inline assembly bypasses Solidity safety checks",
            severity := Severity.medium,
            location := Option.some { line := getNodeLineNumber node, file := filePath },
            code := Option.some (getNodeText node sourceCode),
            suggestions := Option.some
              ["Try to use high-level Solidity constructs instead of assembly when possible"] }]
    else []
  selfdestructIssues ++ delegatecallIssues ++ assemblyIssues

/-- The `hasOwnerModifier` check shared by SEC-004 and SEC-006:
`(functionNode.modifiers || []).some(mod => mod.name?.toLowerCase()...)`. -/
def hasOwnerModifier (functionNode : ASTNode) : Bool :=
  (functionNode.modifiers.getD []).any (fun m =>
    match m.name with
    | Option.some nm =>
        strIncludes nm.toLower "owner" || strIncludes nm.toLower "admin"
          || nm.toLower = "onlyowner"
    | Option.none => false)

/-- The `hasMsgSenderCheck` text heuristic shared by SEC-004 and SEC-006. -/
def hasMsgSenderCheck (functionText : String) : Bool :=
  strIncludes functionText "require" && strIncludes functionText "msg.sender"
    && (strIncludes functionText "owner" || strIncludes functionText "admin")

/-- `accessControlRule.detect` (SEC-004).  The source reads
`functionNode.name.toLowerCase()` without a defensive check, so a function
definition without a `name` (an unnamed constructor / fallback node) makes
the call throw a `TypeError`; the model returns `.error` there. -/
def accessControlDetect (node : ASTNode) (sourceCode filePath : String) :
    Except String (List Issue) :=
  if node.type ≠ "FunctionDefinition" then Except.ok []
  else if (match node.visibility with
      | Option.some v => ["internal", "private"].contains v
      | Option.none => false) then Except.ok []
  else match node.name with
  | Option.none =>
      Except.error "TypeError: Cannot read properties of undefined (reading toLowerCase)"
  | Option.some rawName =>
    let sensitiveFunctions : List String :=
      ["mint", "burn", "transferOwnership", "changeOwner", "lock", "unlock",
       "pause", "unpause", "withdraw"]
    let name := rawName.toLower
    let isSensitive := sensitiveFunctions.any (fun sf => name = sf || strIncludes name sf)
    if ¬ isSensitive then Except.ok []
    else
      let functionText := getNodeText node sourceCode
      if ¬ hasOwnerModifier node && ¬ hasMsgSenderCheck functionText
      then Except.ok
        [{ id := "SEC-004",
           description := "Function \"" ++ rawName ++ "\" lacks proper access control",
           severity := Severity.high,
           location := Option.some { line := getNodeLineNumber node, file := filePath },
           code := Option.some (getNodeText node sourceCode),
           suggestions := Option.some
             ["Add access control with onlyOwner modifier",
              "Add require(msg.sender == owner, \x27Not authorized\x27)"] }]
      else Except.ok []

/-- `integerOverflowRule.detect` (SEC-005). -/
def integerOverflowDetect (node : ASTNode) (sourceCode filePath : String) : List Issue :=
  if node.type ≠ "BinaryOperation" then []
  else
    let isArithmetic : Bool := match node.operator with
      | Option.some op => ["+", "-", "*"].contains op
      | Option.none => false
    if ¬ isArithmetic then []
    else
    let fileContent := sourceCode.toLower
    let usesSafeMath := strIncludes fileContent "using safemath"
      || strIncludes fileContent "import \"@openzeppelin/contracts/utils/math/safeMath.sol\""
    let solidity08Check := strIncludes fileContent "pragma solidity ^0.8"
      || strIncludes fileContent "pragma solidity >=0.8"
    if usesSafeMath || solidity08Check then []
    else
      [{ id := "SEC-005",
         description := "Potential integer overflow/underflow in arithmetic operation",
         severity := Severity.high,
         location := Option.some { line := getNodeLineNumber node, file := filePath },
         code := Option.some (getNodeText node sourceCode),
         suggestions := Option.some
           ["Use SafeMath library for arithmetic operations",
            "Upgrade to Solidity 0.8.0+ which has built-in overflow checking",
            "Add explicit bounds checking before operations"] }]

mutual
/-- The `while (currentNode && currentNode.type !== "FunctionDefinition")`
climb of SEC-006: the containing function definition, if any. -/
def findEnclosingFunction : ASTNode → Option ASTNode
  | .mk ty nm vis mem op loc rg expr par tyn mods params body subs =>
      if ty = "FunctionDefinition"
      then Option.some (ASTNode.mk ty nm vis mem op loc rg expr par tyn mods params body subs)
      else findEnclosingFunctionOpt par
/-- The climb continued through an optional `parent`. -/
def findEnclosingFunctionOpt : ASTNodeOpt → Option ASTNode
  | .none => Option.none
  | .some n => findEnclosingFunction n
end

/-- `unprotectedSelfdestructRule.detect` (SEC-006). -/
def unprotectedSelfdestructDetect (node : ASTNode) (sourceCode filePath : String) : List Issue :=
  if ¬ (node.type = "FunctionCall" &&
      (match node.expression with
        | Option.some e => e.type = "Identifier" && e.name = Option.some "selfdestruct"
        | Option.none => false)) then []
  else match findEnclosingFunction node with
  | Option.none => []
  | Option.some functionNode =>
      let functionText := getNodeText functionNode sourceCode
      if ¬ hasOwnerModifier functionNode && ¬ hasMsgSenderCheck functionText
      then [{ id := "SEC-006",
              description := "Unprotected selfdestruct - anyone can destroy the contract",
              severity := Severity.high,
              location := Option.some { line := getNodeLineNumber node, file := filePath },
              code := Option.some (getNodeText node sourceCode),
              suggestions := Option.some
                ["Add access control to protect selfdestruct operation",
                 "Use onlyOwner modifier or require(msg.sender == owner)"] }]
      else []

/-- JS `a || b` on nullable line numbers (used by SEC-007 for
`getNodeLineNumber(param) || getNodeLineNumber(functionNode)`); `0` is falsy. -/
def jsLineOr (a b : Option Nat) : Option Nat :=
  match a with
  | Option.some 0 => b
  | Option.some l => Option.some l
  | Option.none => b

/-- `addressValidationRule.detect` (SEC-007). -/
def addressValidationDetect (node : ASTNode) (sourceCode filePath : String) : List Issue :=
  if node.type ≠ "FunctionDefinition" then []
  else
    let parameters := node.parameters.getD []
    let addressParams := parameters.filter (fun p =>
      match p.typeName with
      | Option.some t => t.name = Option.some "address"
      | Option.none => false)
    if addressParams.length = 0 then []
    else
      let functionText := getNodeText node sourceCode
      addressParams.flatMap (fun param =>
        let paramName := param.name.getD "undefined"
        let hasZeroCheck := strIncludes functionText (paramName ++ " != address(0)")
          || strIncludes functionText (paramName ++ " != 0x0")
        if ¬ hasZeroCheck
        then [{ id := "SEC-007",
                description := "Missing zero address validation for parameter \""
                  ++ paramName ++ "\"",
                severity := Severity.medium,
                location := Option.some
                  { line := jsLineOr (getNodeLineNumber param) (getNodeLineNumber node),
                    file := filePath },
                code := Option.some (getNodeText param sourceCode),
                suggestions := Option.some
                  ["Add require(" ++ paramName
                    ++ " != address(0), \"Zero address not allowed\")"] }]
        else [])

/-- `erc20ImplementationRule.detect` (SEC-008). -/
def erc20ImplementationDetect (node : ASTNode) (sourceCode filePath : String) : List Issue :=
  if node.type ≠ "ContractDefinition" then []
  else
    let isERC20 := strIncludes sourceCode "ERC20" || strIncludes sourceCode "IERC20"
      || strIncludes sourceCode "function transfer("
      || strIncludes sourceCode "function transferFrom("
      || strIncludes sourceCode "function approve("
    if ¬ isERC20 then []
    else
      -- the transfer check is contradictory in the source
      -- (`includes(s) && !includes(s)`) and can never push its issue
      let transferIssues : List Issue :=
        if strIncludes sourceCode "function transfer(address"
            && ¬ strIncludes sourceCode "function transfer(address"
            && ¬ strIncludes sourceCode "return true"
            && ¬ strIncludes sourceCode "return _transfer"
        then [{ id := "SEC-008-TRANSFER",
                description := "ERC20 transfer() function might not return a boolean as required by the standard",
                severity := Severity.high,
                location := Option.some { line := getNodeLineNumber node, file := filePath },
                code := Option.some "function transfer(...)",
                suggestions := Option.some
                  ["Ensure transfer() returns a boolean value as required by the ERC20 standard",
                   "Consider using OpenZeppelin\x27s ERC20 implementation"] }]
        else []
      let approveIssues : List Issue :=
        if strIncludes sourceCode "function approve(address"
        then
          let approveIdx := jsIndexOf sourceCode "function approve(address"
          let approveFunction := jsSubstring sourceCode approveIdx
            (jsIndexOfFrom sourceCode "\x7d" approveIdx + 1)
          if ¬ strIncludes approveFunction "require"
              || ¬ strIncludes approveFunction "allowance"
          then [{ id := "SEC-008-APPROVE",
                  description := "ERC20 approve() function might be vulnerable to race conditions",
                  severity := Severity.medium,
                  location := Option.some
                    { line := Option.some (jsSplitCount (jsSubstring sourceCode 0 approveIdx) "\n"),
                      file := filePath },
                  code := Option.some "function approve(...)",
                  suggestions := Option.some
                    ["Consider using increaseAllowance/decreaseAllowance instead of approve",
                     "Add a check to prevent changing a non-zero allowance without setting it to zero first"] }]
          else []
        else []
      transferIssues ++ approveIssues

/-- `txOriginAuthRule.detect` (SEC-009). -/
def txOriginAuthDetect (node : ASTNode) (sourceCode filePath : String) : List Issue :=
  if node.type ≠ "MemberAccess" then []
  else if node.memberName ≠ Option.some "origin" then []
  else match node.expression with
  | Option.none => []
  | Option.some e =>
    if e.name ≠ Option.some "tx" then []
    else
      let nodeText := getNodeText node sourceCode
      let idx := jsIndexOf sourceCode nodeText
      let surroundingText := jsSubstring sourceCode (max 0 (idx - 50))
        (min (sourceCode.length : Int) (idx + (nodeText.length : Int) + 50))
      if strIncludes surroundingText "require" || strIncludes surroundingText "if"
          || strIncludes surroundingText "==" || strIncludes surroundingText "!="
      then [{ id := "SEC-009",
              description := "Using tx.origin for authentication is vulnerable to phishing attacks",
              severity := Severity.high,
              location := Option.some { line := getNodeLineNumber node, file := filePath },
              code := Option.some nodeText,
              suggestions := Option.some
                ["Use msg.sender instead of tx.origin for authentication",
                 "tx.origin refers to the original external account that started the transaction"] }]
      else []

/-- The finding pushed by SEC-010 for the `block.timestamp` access node. -/
def timestampIssue (memberAccess : ASTNode) (sourceCode filePath : String) : Issue :=
  { id := "SEC-010",
    description := "Critical operation depends on block.timestamp, which can be manipulated by miners",
    severity := Severity.medium,
    location := Option.some { line := getNodeLineNumber memberAccess, file := filePath },
    code := Option.some (getNodeText memberAccess sourceCode),
    suggestions := Option.some
      ["Avoid using block.timestamp for critical operations",
       "If timing is needed, consider using block.number as a more reliable source of timing"] }

mutual
/-- The `while` climb of SEC-010: report the finding if an
`IfStatement`/`WhileStatement`/`ForStatement` is met before leaving on a
`FunctionDefinition` or on a missing parent. -/
def timestampWalk (memberAccess : ASTNode) (sourceCode filePath : String) :
    ASTNode → List Issue
  | .mk ty nm vis mem op loc rg expr par tyn mods params body subs =>
      if ty = "FunctionDefinition" then []
      else if ty = "IfStatement" || ty = "WhileStatement" || ty = "ForStatement"
      then [timestampIssue memberAccess sourceCode filePath]
      else
        -- the bound variables keep the matched node alive for the recursion
        have _ := (nm, vis, mem, op, loc, rg, expr, tyn, mods, params, body, subs)
        timestampWalkOpt memberAccess sourceCode filePath par
/-- The climb of SEC-010 continued through an optional `parent`. -/
def timestampWalkOpt (memberAccess : ASTNode) (sourceCode filePath : String) :
    ASTNodeOpt → List Issue
  | .none => []
  | .some n => timestampWalk memberAccess sourceCode filePath n
end

/-- `timestampDependenceRule.detect` (SEC-010). -/
def timestampDependenceDetect (node : ASTNode) (sourceCode filePath : String) : List Issue :=
  if node.type ≠ "MemberAccess" then []
  else if node.memberName ≠ Option.some "timestamp" then []
  else match node.expression with
  | Option.none => []
  | Option.some e =>
    if e.name ≠ Option.some "block" then []
    else timestampWalk node sourceCode filePath node

/-! ### Rule contract and registry (`src/types/rules.ts`, `securityRules.ts`) -/

/-- `SecurityRule` from `src/types/rules.ts`: metadata plus the detection
function.  `detect` returns `Except String (List Issue)`: `.error` models a
thrown JS exception. -/
structure SecurityRule : Type where
  id : String
  name : String
  description : String
  severity : Severity
  category : String
  detect : ASTNode → String → String → Except String (List Issue)

/-- `reentrancyRule` (SEC-001); its `detect` body is total. -/
def reentrancyRule : SecurityRule :=
  { id := "SEC-001", name := "Reentrancy Vulnerability",
    description := "Detects functions that modify state after making external calls, which could lead to reentrancy attacks",
    severity := Severity.high, category := "security",
    detect := fun node sourceCode filePath => Except.ok (reentrancyDetect node sourceCode filePath) }

/-- `uncheckedCallsRule` (SEC-002). -/
def uncheckedCallsRule : SecurityRule :=
  { id := "SEC-002", name := "Unchecked External Call",
    description := "Detects external calls whose return values are not checked, which could lead to silent failures",
    severity := Severity.medium, category := "security",
    detect := fun node sourceCode filePath => Except.ok (uncheckedCallsDetect node sourceCode filePath) }

/-- `dangerousFunctionsRule` (SEC-003). -/
def dangerousFunctionsRule : SecurityRule :=
  { id := "SEC-003", name := "Dangerous Function Use",
    description := "Detects use of potentially dangerous functions like selfdestruct, delegatecall, or assembly",
    severity := Severity.high, category := "security",
    detect := fun node sourceCode filePath => Except.ok (dangerousFunctionsDetect node sourceCode filePath) }

/-- `accessControlRule` (SEC-004); its `detect` can throw (see
`accessControlDetect`). -/
def accessControlRule : SecurityRule :=
  { id := "SEC-004", name := "Missing Access Control",
    description := "Detects sensitive functions that lack proper access control mechanisms",
    severity := Severity.high, category := "security",
    detect := accessControlDetect }

/-- `integerOverflowRule` (SEC-005). -/
def integerOverflowRule : SecurityRule :=
  { id := "SEC-005", name := "Integer Overflow/Underflow",
    description := "Detects potential integer overflow or underflow vulnerabilities",
    severity := Severity.high, category := "security",
    detect := fun node sourceCode filePath => Except.ok (integerOverflowDetect node sourceCode filePath) }

/-- `unprotectedSelfdestructRule` (SEC-006). -/
def unprotectedSelfdestructRule : SecurityRule :=
  { id := "SEC-006", name := "Unprotected Selfdestruct",
    description := "Detects unprotected selfdestruct operations that could be called by anyone",
    severity := Severity.high, category := "security",
    detect := fun node sourceCode filePath => Except.ok (unprotectedSelfdestructDetect node sourceCode filePath) }

/-- `addressValidationRule` (SEC-007). -/
def addressValidationRule : SecurityRule :=
  { id := "SEC-007", name := "Missing Address Validation",
    description := "Detects missing zero-address validation for address parameters",
    severity := Severity.medium, category := "security",
    detect := fun node sourceCode filePath => Except.ok (addressValidationDetect node sourceCode filePath) }

/-- `erc20ImplementationRule` (SEC-008). -/
def erc20ImplementationRule : SecurityRule :=
  { id := "SEC-008", name := "ERC20 Implementation Issues",
    description := "Detects common issues in ERC20 token implementations",
    severity := Severity.high, category := "security",
    detect := fun node sourceCode filePath => Except.ok (erc20ImplementationDetect node sourceCode filePath) }

/-- `txOriginAuthRule` (SEC-009). -/
def txOriginAuthRule : SecurityRule :=
  { id := "SEC-009", name := "tx.origin Authentication",
    description := "Detects use of tx.origin for authentication, which is vulnerable to phishing attacks",
    severity := Severity.high, category := "security",
    detect := fun node sourceCode filePath => Except.ok (txOriginAuthDetect node sourceCode filePath) }

/-- `timestampDependenceRule` (SEC-010). -/
def timestampDependenceRule : SecurityRule :=
  { id := "SEC-010", name := "Timestamp Dependence",
    description := "Detects critical operations that depend on block.timestamp, which can be manipulated by miners",
    severity := Severity.medium, category := "security",
    detect := fun node sourceCode filePath => Except.ok (timestampDependenceDetect node sourceCode filePath) }

/-- The module-level `securityRules` registry array of `securityRules.ts`. -/
def securityRules : List SecurityRule :=
  [reentrancyRule, uncheckedCallsRule, dangerousFunctionsRule, accessControlRule,
   integerOverflowRule, unprotectedSelfdestructRule, addressValidationRule,
   erc20ImplementationRule, txOriginAuthRule, timestampDependenceRule]

/-! ### Rule engine (`src/analyzer/ruleEngine.ts`) -/

/-- `AnalysisOptions` of `ruleEngine.ts`. -/
structure AnalysisOptions : Type where
  includeRules : Option (List String) := Option.none
  excludeRules : Option (List String) := Option.none
  minSeverity : Option Severity := Option.none
  security : Option Bool := Option.none
  gas : Option Bool := Option.none
  practices : Option Bool := Option.none

/-- `RuleEngine.filterRulesByOptions`: the include list (when present and
non-empty) is applied first, the exclude list second. -/
def filterRulesByOptions (rules : List SecurityRule) (options : AnalysisOptions) :
    List SecurityRule :=
  let result := rules
  let result := match options.includeRules with
    | Option.some incl =>
        if incl.length > 0 then result.filter (fun rule => incl.contains rule.id) else result
    | Option.none => result
  match options.excludeRules with
  | Option.some excl =>
      if excl.length > 0 then result.filter (fun rule => ! excl.contains rule.id) else result
  | Option.none => result

/-- The `severityLevels` object literal of `RuleEngine.filterIssuesBySeverity`:
`{ high: 3, medium: 2, low: 1, info: 0 }`.  A lookup of a key that is not in
the object — in particular `critical` — yields `undefined`, modelled `none`. -/
def severityLevels : Severity → Option Nat
  | Severity.high => Option.some 3
  | Severity.medium => Option.some 2
  | Severity.low => Option.some 1
  | Severity.info => Option.some 0
  | Severity.critical => Option.none

/-- JS `a >= b` on possibly-`undefined` numbers: any comparison with
`undefined` is false. -/
def jsNumGe : Option Nat → Option Nat → Bool
  | Option.some a, Option.some b => b ≤ a
  | _, _ => false

/-- `RuleEngine.filterIssuesBySeverity`: keep the issues whose looked-up
level compares `>=` the looked-up minimum level. -/
def filterIssuesBySeverity (issues : List Issue) (minSeverity : Option Severity) :
    List Issue :=
  match minSeverity with
  | Option.none => issues
  | Option.some ms =>
      issues.filter (fun issue => jsNumGe (severityLevels issue.severity) (severityLevels ms))

/-- `RuleEngine.applyRuleToAST`: returns the empty list on every branch. -/
def applyRuleToAST (rule : SecurityRule) (_ast : ASTNode) (_sourceCode _filePath : String) :
    List Issue :=
  if rule.id = "SEC-001" then [] else []

/-- The inner node loop of `RuleEngine.analyze`: invoke `detect` on each
visited node and concatenate; there is no `try`/`catch`, so an error
propagates. -/
def detectOnNodes (rule : SecurityRule) (nodes : List ASTNode)
    (sourceCode filePath : String) : Except String (List Issue) :=
  match nodes with
  | [] => Except.ok []
  | n :: rest => do
      let nodeIssues ← rule.detect n sourceCode filePath
      let restIssues ← detectOnNodes rule rest sourceCode filePath
      Except.ok (nodeIssues ++ restIssues)

/-- The outer rule loop of `RuleEngine.analyze`: per rule, `applyRuleToAST`
followed by `detect` over `findNodes(ast, "*")`. -/
def runRules (rules : List SecurityRule) (ast : ASTNode) (sourceCode filePath : String) :
    Except String (List Issue) :=
  match rules with
  | [] => Except.ok []
  | rule :: rest => do
      let astIssues := applyRuleToAST rule ast sourceCode filePath
      let nodeIssues ← detectOnNodes rule (findNodes ast "*") sourceCode filePath
      let restIssues ← runRules rest ast sourceCode filePath
      Except.ok (astIssues ++ nodeIssues ++ restIssues)

/-- `RuleEngine.analyze(ast, sourceCode, filePath, options)` over an explicit
rule list (the engine's `this.rules`). -/
def RuleEngine.analyze (rules : List SecurityRule) (ast : ASTNode)
    (sourceCode filePath : String) (options : AnalysisOptions) :
    Except String (List Issue) := do
  let issues ← runRules (filterRulesByOptions rules options) ast sourceCode filePath
  Except.ok (filterIssuesBySeverity issues options.minSeverity)

/-- `SecurityAnalyzer.analyze` from the securityAnalyzer module (the sibling
implementation): applies each registry rule to the AST root once, with a
`try`/`catch` around the `detect` call so that a throwing rule contributes no
issues and the remaining rules still run — contrast with `RuleEngine.analyze`
above, which has no catch. -/
def securityAnalyzerIssues (rules : List SecurityRule) (ast : ASTNode)
    (sourceCode filePath : String) : List Issue :=
  match rules with
  | [] => []
  | rule :: rest =>
      (match rule.detect ast sourceCode filePath with
        | Except.ok ruleIssues => ruleIssues
        | Except.error _ => []) ++ securityAnalyzerIssues rest ast sourceCode filePath

/-! ### Engine instances and the shared registry array

`RuleEngine`'s constructor runs `this.rules = customRules || securityRules`
and `addRule` runs `this.rules.push(rule)`: the field holds a *reference* to
an array, and default-constructed engines all reference the one module-level
`securityRules` array.  The reference semantics is modelled with an explicit
heap of arrays indexed by `Nat` references; reference `0` is the module-level
array. -/

/-- The heap of rule arrays live in the process. -/
structure RegistryHeap : Type where
  arrays : List (List SecurityRule)

/-- An engine instance: its `rules` field is a reference into the heap. -/
structure RuleEngineInst : Type where
  rulesRef : Nat

/-- Process start: the module-level `securityRules` array at reference 0. -/
def initialHeap : RegistryHeap :=
  { arrays := [securityRules] }

/-- `new RuleEngine()` — no custom rules, so the engine aliases the module
array. -/
def newRuleEngine : RuleEngineInst :=
  { rulesRef := 0 }

/-- `new RuleEngine(customRules)` — a fresh array on the heap. -/
def newRuleEngineWithRules (h : RegistryHeap) (customRules : List SecurityRule) :
    RegistryHeap × RuleEngineInst :=
  ({ arrays := h.arrays ++ [customRules] }, { rulesRef := h.arrays.length })

/-- The rule array an engine's `this.rules` currently references. -/
def engineRules (h : RegistryHeap) (e : RuleEngineInst) : List SecurityRule :=
  h.arrays.getD e.rulesRef []

/-- `engine.addRule(rule)`: `this.rules.push(rule)` mutates the referenced
array in place. -/
def addRule (h : RegistryHeap) (e : RuleEngineInst) (rule : SecurityRule) : RegistryHeap :=
  { arrays := h.arrays.set e.rulesRef (engineRules h e ++ [rule]) }

/-- `engine.analyze(...)` run against the heap the instance lives in. -/
def engineAnalyze (h : RegistryHeap) (e : RuleEngineInst) (ast : ASTNode)
    (sourceCode filePath : String) (options : AnalysisOptions) :
    Except String (List Issue) :=
  RuleEngine.analyze (engineRules h e) ast sourceCode filePath options

/-! ### Result aggregation (`calculateStats` and issue concatenation) -/

/-- The `issuesBySeverity` object: one counter per severity enum value. -/
structure SeverityCounts : Type where
  critical : Nat
  high : Nat
  medium : Nat
  low : Nat
  info : Nat
deriving DecidableEq, Repr

/-- One step of the `calculateStats` loop: increment the counter of the
issue's severity (every enum severity is a key of the object, so the
`severityKey in issuesBySeverity` guard always passes). -/
def bumpSeverity (c : SeverityCounts) : Severity → SeverityCounts
  | Severity.critical => { c with critical := c.critical + 1 }
  | Severity.high => { c with high := c.high + 1 }
  | Severity.medium => { c with medium := c.medium + 1 }
  | Severity.low => { c with low := c.low + 1 }
  | Severity.info => { c with info := c.info + 1 }

/-- Read one counter out of `SeverityCounts`. -/
def sevCount (c : SeverityCounts) : Severity → Nat
  | Severity.critical => c.critical
  | Severity.high => c.high
  | Severity.medium => c.medium
  | Severity.low => c.low
  | Severity.info => c.info

/-- The `stats` block `{ issuesBySeverity, totalIssues }`. -/
structure AnalysisStats : Type where
  issuesBySeverity : SeverityCounts
  totalIssues : Nat
deriving DecidableEq, Repr

/-- `calculateStats(issues)` from the CLI analysis module (and, identically,
`SecurityAnalyzer.calculateStats`): severity histogram plus total count. -/
def calculateStats (issues : List Issue) : AnalysisStats :=
  { issuesBySeverity :=
      issues.foldl (fun c issue => bumpSeverity c issue.severity) ⟨0, 0, 0, 0, 0⟩,
    totalIssues := issues.length }

/-- The aggregate of the analysis result: `result.issues = [...security,
...gas, ...practice]` followed by `result.stats = calculateStats(result.issues)`. -/
structure AggregateResult : Type where
  issues : List Issue
  stats : AnalysisStats

/-- The aggregation step of the analysis pipeline over the three per-category
finding lists. -/
def aggregate (securityIssues gasIssues practiceIssues : List Issue) : AggregateResult :=
  let issues := securityIssues ++ gasIssues ++ practiceIssues
  { issues := issues, stats := calculateStats issues }

/-! ### Concrete test inputs -/

/-- A node carrying only a `type` tag (all optional properties absent). -/
def bareNode (type : String) : ASTNode :=
  ASTNode.mk type Option.none Option.none Option.none Option.none Option.none Option.none
    ASTNodeOpt.none ASTNodeOpt.none ASTNodeOpt.none ASTNodeListOpt.none ASTNodeListOpt.none
    ASTNodeList.nil ASTNodeList.nil

/-- A one-character source span starting at the given line and column. -/
def locAt (line column : Nat) : SrcLoc :=
  { start := { line := line, column := column },
    stop := { line := line, column := column + 1 } }

/-- The member access `msg.sender.call` of the end-to-end scenario. -/
def scenarioMember : ASTNode :=
  ASTNode.mk "MemberAccess" Option.none Option.none (Option.some "call") Option.none
    (Option.some (locAt 8 8)) (Option.some (170, 185))
    ASTNodeOpt.none ASTNodeOpt.none ASTNodeOpt.none ASTNodeListOpt.none ASTNodeListOpt.none
    ASTNodeList.nil ASTNodeList.nil

/-- The low-level call expression on line 8 of the end-to-end scenario. -/
def scenarioCall : ASTNode :=
  ASTNode.mk "FunctionCall" Option.none Option.none Option.none Option.none
    (Option.some (locAt 8 8)) (Option.some (170, 205))
    (ASTNodeOpt.some scenarioMember) ASTNodeOpt.none ASTNodeOpt.none
    ASTNodeListOpt.none ASTNodeListOpt.none ASTNodeList.nil ASTNodeList.nil

/-- The state write `balances[msg.sender] = 0;` on line 9 of the scenario. -/
def scenarioWrite : ASTNode :=
  ASTNode.mk "BinaryOperation" Option.none Option.none Option.none (Option.some "=")
    (Option.some (locAt 9 8)) (Option.some (215, 239))
    ASTNodeOpt.none ASTNodeOpt.none ASTNodeOpt.none
    ASTNodeListOpt.none ASTNodeListOpt.none ASTNodeList.nil ASTNodeList.nil

/-- The `withdraw()` function definition of the scenario, starting on line 6,
whose body holds exactly the call (line 8) and the state write (line 9). -/
def withdrawFunction : ASTNode :=
  ASTNode.mk "FunctionDefinition" (Option.some "withdraw") (Option.some "public")
    Option.none Option.none (Option.some (locAt 6 4)) (Option.some (120, 245))
    ASTNodeOpt.none ASTNodeOpt.none ASTNodeOpt.none
    ASTNodeListOpt.none ASTNodeListOpt.none
    (ASTNodeList.ofList [scenarioCall, scenarioWrite]) ASTNodeList.nil

/-- The contract wrapping the scenario function. -/
def scenarioContract : ASTNode :=
  ASTNode.mk "ContractDefinition" (Option.some "Vault") Option.none Option.none Option.none
    (Option.some (locAt 3 0)) (Option.some (25, 247))
    ASTNodeOpt.none ASTNodeOpt.none ASTNodeOpt.none
    ASTNodeListOpt.none ASTNodeListOpt.none
    ASTNodeList.nil (ASTNodeList.ofList [withdrawFunction])

/-- The root of the end-to-end scenario tree. -/
def scenarioAst : ASTNode :=
  ASTNode.mk "SourceUnit" Option.none Option.none Option.none Option.none
    (Option.some (locAt 1 0)) (Option.some (0, 248))
    ASTNodeOpt.none ASTNodeOpt.none ASTNodeOpt.none
    ASTNodeListOpt.none ASTNodeListOpt.none
    (ASTNodeList.ofList [scenarioContract]) ASTNodeList.nil

/-- Source text of the end-to-end scenario (braces escaped). -/
def scenarioSource : String :=
  "pragma solidity ^0.7.0;\n\ncontract Vault \x7b\n    mapping(address => uint256) balances;\n\n    function withdraw() public \x7b\n        uint256 amount = balances[msg.sender];\n        msg.sender.call\x7bvalue: amount\x7d(\"\");\n        balances[msg.sender] = 0;\n    \x7d\n\x7d\n"

/-- A node whose `type` tag is the literal string `"*"` — the only kind of
node `findNodes(ast, "*")` can ever return. -/
def starNode : ASTNode :=
  bareNode "*"

/-- A test rule whose `detect` always throws (a faulty rule in the registry). -/
def throwingRule : SecurityRule :=
  { id := "TEST-THROW", name := "Throwing rule",
    description := "test rule whose detect always throws",
    severity := Severity.low, category := "security",
    detect := fun _ _ _ => Except.error "Error: rule failure" }

/-- The finding the well-behaved test rule reports on every node. -/
def reportedIssue : Issue :=
  { id := "TEST-REPORT", description := "reported by the well-behaved test rule",
    severity := Severity.low }

/-- A well-behaved test rule that reports `reportedIssue` on every node. -/
def reportingRule : SecurityRule :=
  { id := "TEST-REPORT", name := "Reporting rule",
    description := "test rule that reports one finding per node",
    severity := Severity.low, category := "security",
    detect := fun _ _ _ => Except.ok [reportedIssue] }

/-- A critical-severity finding (severity values come from the repository's
five-valued `Severity` enum). -/
def criticalIssue : Issue :=
  { id := "TEST-CRITICAL", description := "a critical finding",
    severity := Severity.critical }

/-- An unnamed function definition (the parser produces `name: null` for
constructors and fallback functions): structurally valid, `name` absent. -/
def unnamedFunction : ASTNode :=
  ASTNode.mk "FunctionDefinition" Option.none (Option.some "public")
    Option.none Option.none (Option.some (locAt 12 4)) (Option.some (300, 360))
    ASTNodeOpt.none ASTNodeOpt.none ASTNodeOpt.none
    ASTNodeListOpt.none ASTNodeListOpt.none ASTNodeList.nil ASTNodeList.nil

/-- A function definition with no `loc` metadata (location unknown). -/
def functionWithoutLoc : ASTNode :=
  ASTNode.mk "FunctionDefinition" (Option.some "withdraw") (Option.some "public")
    Option.none Option.none Option.none Option.none
    ASTNodeOpt.none ASTNodeOpt.none ASTNodeOpt.none
    ASTNodeListOpt.none ASTNodeListOpt.none ASTNodeList.nil ASTNodeList.nil

/-- An external call at line 10 (the spec's positive reentrancy test). -/
def callAt10 : ASTNode :=
  ASTNode.mk "FunctionCall" Option.none Option.none Option.none Option.none
    (Option.some (locAt 10 8)) (Option.some (200, 230))
    ASTNodeOpt.none ASTNodeOpt.none ASTNodeOpt.none
    ASTNodeListOpt.none ASTNodeListOpt.none ASTNodeList.nil ASTNodeList.nil

/-- A state write at line 12. -/
def writeAt12 : ASTNode :=
  ASTNode.mk "BinaryOperation" Option.none Option.none Option.none (Option.some "=")
    (Option.some (locAt 12 8)) (Option.some (260, 280))
    ASTNodeOpt.none ASTNodeOpt.none ASTNodeOpt.none
    ASTNodeListOpt.none ASTNodeListOpt.none ASTNodeList.nil ASTNodeList.nil

/-- A state write at line 5 (the spec's checks-effects-interactions test). -/
def writeAt5 : ASTNode :=
  ASTNode.mk "BinaryOperation" Option.none Option.none Option.none (Option.some "=")
    (Option.some (locAt 5 8)) (Option.some (90, 110))
    ASTNodeOpt.none ASTNodeOpt.none ASTNodeOpt.none
    ASTNodeListOpt.none ASTNodeListOpt.none ASTNodeList.nil ASTNodeList.nil

/-- An external call and a state write sharing line 4, column 4 (a position
tie). -/
def callTied : ASTNode :=
  ASTNode.mk "FunctionCall" Option.none Option.none Option.none Option.none
    (Option.some (locAt 4 4)) (Option.some (60, 80))
    ASTNodeOpt.none ASTNodeOpt.none ASTNodeOpt.none
    ASTNodeListOpt.none ASTNodeListOpt.none ASTNodeList.nil ASTNodeList.nil

/-- The state write tied with `callTied` at line 4, column 4. -/
def writeTied : ASTNode :=
  ASTNode.mk "BinaryOperation" Option.none Option.none Option.none (Option.some "=")
    (Option.some (locAt 4 4)) (Option.some (60, 80))
    ASTNodeOpt.none ASTNodeOpt.none ASTNodeOpt.none
    ASTNodeListOpt.none ASTNodeListOpt.none ASTNodeList.nil ASTNodeList.nil

/-- A located function definition enclosing the witness call/write pairs. -/
def witnessFunction : ASTNode :=
  ASTNode.mk "FunctionDefinition" (Option.some "withdraw") (Option.some "public")
    Option.none Option.none (Option.some (locAt 9 4)) (Option.some (150, 300))
    ASTNodeOpt.none ASTNodeOpt.none ASTNodeOpt.none
    ASTNodeListOpt.none ASTNodeListOpt.none ASTNodeList.nil ASTNodeList.nil

/-! ### Helper lemmas about the sort order and the scan -/

/-- The comparator is non-positive exactly when the (line, column) key of the
first node is lexicographically at most that of the second. -/
theorem sortCmp_le_iff (a b : ASTNode) : sortCmp a b ≤ 0 ↔
    (startLine0 a < startLine0 b
      ∨ (startLine0 a = startLine0 b ∧ startCol0 a ≤ startCol0 b)) := by
  unfold sortCmp
  split <;> omega

/-- The comparator is negative exactly when the key of the first node is
lexicographically strictly below that of the second. -/
theorem sortCmp_neg_iff (a b : ASTNode) : sortCmp a b < 0 ↔
    (startLine0 a < startLine0 b
      ∨ (startLine0 a = startLine0 b ∧ startCol0 a < startCol0 b)) := by
  unfold sortCmp
  split <;> omega

/-- Unfold `sortLe` to its comparator condition. -/
theorem sortLe_eq_true_iff (a b : ASTNode) : sortLe a b = true ↔ sortCmp a b ≤ 0 := by
  simp [sortLe]

/-- The comparator order is transitive. -/
theorem sortLe_trans : ∀ a b c : ASTNode,
    sortLe a b = true → sortLe b c = true → sortLe a c = true := by
  intro a b c hab hbc
  rw [sortLe_eq_true_iff, sortCmp_le_iff] at hab hbc ⊢
  omega

/-- The comparator order is total. -/
theorem sortLe_total : ∀ a b : ASTNode, (sortLe a b || sortLe b a) = true := by
  intro a b
  rw [Bool.or_eq_true, sortLe_eq_true_iff, sortLe_eq_true_iff, sortCmp_le_iff, sortCmp_le_iff]
  omega

/-- The inner scan loop finds a state change that is a member of the tail. -/
theorem anyStateChangeAfter_of_mem (stateChanges rest : List ASTNode) (b : ASTNode)
    (hb : b ∈ rest) (hcb : stateChanges.contains b = true) :
    anyStateChangeAfter stateChanges rest = true := by
  simp only [anyStateChangeAfter, List.any_eq_true]
  exact ⟨b, hb, hcb⟩

/-- `List.contains` agrees with membership (the `BEq` instance comes from
decidable equality and is lawful). -/
theorem contains_iff_mem (l : List ASTNode) (a : ASTNode) : l.contains a = true ↔ a ∈ l := by
  simp [List.contains]

/-- Soundness direction of the scan: an external call occurring before a
state change in the scanned sequence makes the scan succeed. -/
theorem hazardScan_of_sublist (externalCalls stateChanges : List ASTNode) :
    ∀ (l : List ASTNode) (a b : ASTNode), [a, b].Sublist l →
      externalCalls.contains a = true → stateChanges.contains b = true →
      hazardScan externalCalls stateChanges l = true := by
  intro l
  induction l with
  | nil => intro a b h _ _; cases h
  | cons x rest ih =>
      intro a b h hca hcb
      simp only [hazardScan, Bool.or_eq_true, Bool.and_eq_true]
      cases h with
      | cons _ h' => exact Or.inr (ih a b h' hca hcb)
      | cons₂ _ h' =>
          exact Or.inl ⟨hca, anyStateChangeAfter_of_mem _ _ b (List.singleton_sublist.mp h') hcb⟩

/-- Completeness direction of the scan: a successful scan exhibits an
external call followed by a state change. -/
theorem hazardScan_exists (externalCalls stateChanges : List ASTNode) :
    ∀ l : List ASTNode, hazardScan externalCalls stateChanges l = true →
      ∃ a b, externalCalls.contains a = true ∧ stateChanges.contains b = true
        ∧ [a, b].Sublist l := by
  intro l
  induction l with
  | nil => intro h; simp [hazardScan] at h
  | cons x rest ih =>
      intro h
      simp only [hazardScan, Bool.or_eq_true, Bool.and_eq_true] at h
      cases h with
      | inl h =>
          obtain ⟨hx, hany⟩ := h
          simp only [anyStateChangeAfter, List.any_eq_true] at hany
          obtain ⟨b, hb, hcb⟩ := hany
          exact ⟨x, b, hx, hcb, List.Sublist.cons₂ x (List.singleton_sublist.mpr hb)⟩
      | inr h =>
          obtain ⟨a, b, hca, hcb, hsub⟩ := ih h
          exact ⟨a, b, hca, hcb, List.Sublist.cons x hsub⟩

/-- Stability of the merged sort: a located external call whose key is at
most a located state change's key ends up before it in `nodesByPosition`
(for equal keys this is exactly the declared collection order, calls before
writes). -/
theorem sublist_nodesByPosition (externalCalls stateChanges : List ASTNode) (c w : ASTNode)
    (hc : c ∈ externalCalls) (hw : w ∈ stateChanges)
    (hlc : hasStartLoc c = true) (hlw : hasStartLoc w = true)
    (hle : sortLe c w = true) :
    [c, w].Sublist (nodesByPosition externalCalls stateChanges) := by
  unfold nodesByPosition
  apply List.sublist_mergeSort sortLe_trans sortLe_total
  · exact List.pairwise_pair.mpr hle
  rw [List.filter_append]
  exact List.Sublist.append
    (List.singleton_sublist.mpr (List.mem_filter.mpr ⟨hc, hlc⟩))
    (List.singleton_sublist.mpr (List.mem_filter.mpr ⟨hw, hlw⟩))

/-- One step of the severity histogram. -/
theorem sevCount_bumpSeverity (c : SeverityCounts) (sv s : Severity) :
    sevCount (bumpSeverity c sv) s = sevCount c s + (if sv = s then 1 else 0) := by
  cases sv <;> cases s <;> simp [bumpSeverity, sevCount]

/-- The histogram fold counts the issues of each severity. -/
theorem sevCount_foldl (l : List Issue) (c : SeverityCounts) (s : Severity) :
    sevCount (l.foldl (fun acc issue => bumpSeverity acc issue.severity) c) s
      = sevCount c s + (l.filter (fun issue => issue.severity = s)).length := by
  induction l generalizing c with
  | nil => simp
  | cons i rest ih =>
      simp only [List.foldl_cons, List.filter_cons]
      rw [ih, sevCount_bumpSeverity]
      by_cases h : i.severity = s
      · simp [h]
        omega
      · simp [h]

/-- The first default-constructed engine (`new RuleEngine()`), aliasing the
module-level array at reference 0. -/
def engineA : RuleEngineInst := newRuleEngine

/-- The second default-constructed engine, aliasing the same module-level
array. -/
def engineB : RuleEngineInst := newRuleEngine

/-! ### Claim theorems -/

set_option maxRecDepth 4000 in
/-- C1: the end-to-end scenario fails on the code.  For the tree holding the
single function `withdraw()` (start line 6) whose body is a low-level call on
line 8 followed by the state write on line 9, `RuleEngine.analyze` with
default options returns no findings at all: `findNodes(ast, "*")` matches
only nodes whose type tag is the literal string `"*"`, so no rule's `detect`
is ever invoked.  The reentrancy rule itself, applied to the function node,
would return exactly the expected single high-severity finding at the
function's start line — the loss happens in the engine's walk. -/
theorem c1_analyze_scenario_returns_no_findings :
    RuleEngine.analyze securityRules scenarioAst scenarioSource "Vault.sol" {} = Except.ok []
      ∧ findNodes scenarioAst "*" = []
      ∧ reentrancyDetect withdrawFunction scenarioSource "Vault.sol"
          = [reentrancyIssue withdrawFunction scenarioSource "Vault.sol"]
      ∧ (reentrancyIssue withdrawFunction scenarioSource "Vault.sol").severity = Severity.high
      ∧ (reentrancyIssue withdrawFunction scenarioSource "Vault.sol").location
          = Option.some { line := Option.some 6, file := "Vault.sol" } := by
  refine ⟨rfl, rfl, ?_, rfl, rfl⟩
  have hcalls : findExternalCalls withdrawFunction = [scenarioCall] := by decide
  have hwrites : findStateChanges withdrawFunction = [scenarioWrite] := by decide
  have hsort : (List.filter hasStartLoc ([scenarioCall] ++ [scenarioWrite])).mergeSort sortLe
      = [scenarioCall, scenarioWrite] := by
    have hfilter : List.filter hasStartLoc ([scenarioCall] ++ [scenarioWrite])
        = [scenarioCall, scenarioWrite] := by decide
    rw [hfilter]
    simp [List.mergeSort, List.merge]
    decide
  simp only [reentrancyDetect, hcalls, hwrites, checkReentrancyPattern, nodesByPosition, hsort]
  decide

/-- C2: a throwing rule is not caught at the call site of
`RuleEngine.analyze`: the error propagates out of `analyze` and the findings
of the remaining rules are lost (first two conjuncts: with the throwing rule
in front, analysis of the same tree errors instead of returning the
well-behaved rule's finding).  The sibling `SecurityAnalyzer.analyze` does
catch at the call site and keeps the remaining rules' findings (third
conjunct). -/
theorem c2_throwing_rule_aborts_analyze :
    RuleEngine.analyze [throwingRule, reportingRule] starNode "" "Test.sol" {}
        = Except.error "Error: rule failure"
      ∧ RuleEngine.analyze [reportingRule] starNode "" "Test.sol" {}
        = Except.ok [reportedIssue]
      ∧ securityAnalyzerIssues [throwingRule, reportingRule] starNode "" "Test.sol"
        = [reportedIssue] :=
  ⟨rfl, rfl, rfl⟩

/-- C3: the engine's severity filter drops a critical finding at every set
threshold — here even at the weakest threshold `info` — because the
`severityLevels` object has no `critical` key and the JS comparison
`undefined >= minLevel` is false; without a threshold the finding survives. -/
theorem c3_critical_finding_dropped_by_info_threshold :
    filterIssuesBySeverity [criticalIssue] (Option.some Severity.info) = []
      ∧ filterIssuesBySeverity [criticalIssue] Option.none = [criticalIssue]
      ∧ severityLevels Severity.critical = Option.none :=
  ⟨rfl, rfl, rfl⟩

/-- C4: whenever some located external call is followed — by line, then
column, ties counting as calls-before-writes — by some located state write,
`checkReentrancyPattern` returns exactly one finding, and that finding
carries the enclosing function's location. -/
theorem c4_hazard_yields_single_function_finding :
    ∀ (externalCalls stateChanges : List ASTNode) (functionNode : ASTNode)
      (sourceCode filePath : String),
      (∃ c ∈ externalCalls, ∃ w ∈ stateChanges,
          hasStartLoc c = true ∧ hasStartLoc w = true ∧ sortLe c w = true) →
      checkReentrancyPattern externalCalls stateChanges functionNode sourceCode filePath
          = [reentrancyIssue functionNode sourceCode filePath]
        ∧ (reentrancyIssue functionNode sourceCode filePath).location
          = Option.some
            { line := Option.some ((getNodeLineNumber functionNode).getD 0),
              file := filePath } := by
  intro calls writes fn src fp h
  obtain ⟨c, hc, w, hw, hlc, hlw, hle⟩ := h
  refine ⟨?_, rfl⟩
  unfold checkReentrancyPattern
  have hsub := sublist_nodesByPosition calls writes c w hc hw hlc hlw hle
  have hscan := hazardScan_of_sublist calls writes (nodesByPosition calls writes) c w hsub
    ((contains_iff_mem calls c).mpr hc) ((contains_iff_mem writes w).mpr hw)
  simp [hscan]

/-- C4 witness: the spec's positive case, one call at line 10 and one write
at line 12. -/
theorem c4_witness :
    (∃ c ∈ [callAt10], ∃ w ∈ [writeAt12],
        hasStartLoc c = true ∧ hasStartLoc w = true ∧ sortLe c w = true)
      ∧ checkReentrancyPattern [callAt10] [writeAt12] witnessFunction scenarioSource "Vault.sol"
          = [reentrancyIssue witnessFunction scenarioSource "Vault.sol"]
      ∧ (reentrancyIssue witnessFunction scenarioSource "Vault.sol").location
        = Option.some
          { line := Option.some ((getNodeLineNumber witnessFunction).getD 0),
            file := "Vault.sol" } := by
  refine ⟨by decide, ?_, ?_⟩
  · exact (c4_hazard_yields_single_function_finding [callAt10] [writeAt12] witnessFunction
      scenarioSource "Vault.sol" (by decide)).1
  · exact (c4_hazard_yields_single_function_finding [callAt10] [writeAt12] witnessFunction
      scenarioSource "Vault.sol" (by decide)).2

/-- C5: when every located state write strictly precedes every located
external call (checks-effects-interactions order) — which also covers
consecutive external calls with no write after any of them —
`checkReentrancyPattern` returns the empty list. -/
theorem c5_cei_order_produces_no_finding :
    ∀ (externalCalls stateChanges : List ASTNode) (functionNode : ASTNode)
      (sourceCode filePath : String),
      (∀ c ∈ externalCalls, hasStartLoc c = true →
        ∀ w ∈ stateChanges, hasStartLoc w = true → sortCmp w c < 0) →
      checkReentrancyPattern externalCalls stateChanges functionNode sourceCode filePath
        = [] := by
  intro calls writes fn src fp h
  suffices hs : hazardScan calls writes (nodesByPosition calls writes) = false by
    simp [checkReentrancyPattern, hs]
  cases hEq : hazardScan calls writes (nodesByPosition calls writes) with
  | false => rfl
  | true =>
    exfalso
    obtain ⟨a, b, hca, hcb, hsub⟩ := hazardScan_exists calls writes _ hEq
    unfold nodesByPosition at hsub
    have hsorted : List.Pairwise (fun x y => sortLe x y = true)
        ((List.filter hasStartLoc (calls ++ writes)).mergeSort sortLe) :=
      List.sorted_mergeSort sortLe_trans sortLe_total _
    have hp : List.Pairwise (fun x y => sortLe x y = true) [a, b] :=
      List.Pairwise.sublist hsub hsorted
    have hab : sortLe a b = true := (List.pairwise_cons.mp hp).1 b (by simp)
    have hma : a ∈ List.filter hasStartLoc (calls ++ writes) :=
      (List.mergeSort_perm _ sortLe).mem_iff.mp (List.Sublist.mem (by simp) hsub)
    have hmb : b ∈ List.filter hasStartLoc (calls ++ writes) :=
      (List.mergeSort_perm _ sortLe).mem_iff.mp (List.Sublist.mem (by simp) hsub)
    have hla : hasStartLoc a = true := (List.mem_filter.mp hma).2
    have hlb : hasStartLoc b = true := (List.mem_filter.mp hmb).2
    have hlt := h a ((contains_iff_mem calls a).mp hca) hla
      b ((contains_iff_mem writes b).mp hcb) hlb
    rw [sortLe_eq_true_iff, sortCmp_le_iff] at hab
    rw [sortCmp_neg_iff] at hlt
    omega

/-- C5 witness: the spec's negative case, one write at line 5 followed by
one call at line 10 and no further writes. -/
theorem c5_witness :
    (∀ c ∈ [callAt10], hasStartLoc c = true →
        ∀ w ∈ [writeAt5], hasStartLoc w = true → sortCmp w c < 0)
      ∧ checkReentrancyPattern [callAt10] [writeAt5] witnessFunction scenarioSource "Vault.sol"
        = [] :=
  ⟨by decide, c5_cei_order_produces_no_finding [callAt10] [writeAt5] witnessFunction
    scenarioSource "Vault.sol" (by decide)⟩

/-- C6: two located nodes with identical line and column keep the declared
collection order in `nodesByPosition`: the external call ends up before the
state write (the merged array lists calls first and the sort is stable), so
the scan's verdict is the deterministic function of the two input sets
computed by `checkReentrancyPattern`. -/
theorem c6_tied_nodes_keep_collection_order :
    ∀ (externalCalls stateChanges : List ASTNode) (c w : ASTNode),
      c ∈ externalCalls → w ∈ stateChanges →
      hasStartLoc c = true → hasStartLoc w = true →
      startLine0 c = startLine0 w → startCol0 c = startCol0 w →
      [c, w].Sublist (nodesByPosition externalCalls stateChanges) := by
  intro calls writes c w hc hw hlc hlw hline hcol
  apply sublist_nodesByPosition calls writes c w hc hw hlc hlw
  rw [sortLe_eq_true_iff, sortCmp_le_iff]
  omega

/-- C6 witness: a call and a write both at line 4, column 4. -/
theorem c6_witness :
    (callTied ∈ [callTied] ∧ writeTied ∈ [writeTied]
        ∧ hasStartLoc callTied = true ∧ hasStartLoc writeTied = true
        ∧ startLine0 callTied = startLine0 writeTied
        ∧ startCol0 callTied = startCol0 writeTied)
      ∧ [callTied, writeTied].Sublist (nodesByPosition [callTied] [writeTied]) :=
  ⟨by decide, c6_tied_nodes_keep_collection_order [callTied] [writeTied] callTied writeTied
    (by decide) (by decide) (by decide) (by decide) (by decide) (by decide)⟩

/-- C7: the registry rule SEC-004 (`accessControlRule`) raises on a
structurally valid node whose optional `name` is absent: `detect` reads
`functionNode.name.toLowerCase()` without a defensive check, so an unnamed
public function definition (a constructor or fallback node) makes the call
throw a `TypeError` instead of returning a finding list. -/
theorem c7_access_control_detect_throws_on_unnamed_function :
    accessControlRule ∈ securityRules
      ∧ accessControlRule.detect unnamedFunction scenarioSource "Vault.sol"
        = Except.error "TypeError: Cannot read properties of undefined (reading toLowerCase)" := by
  constructor
  · unfold securityRules
    exact List.mem_cons_of_mem _ (List.mem_cons_of_mem _ (List.mem_cons_of_mem _
      (List.mem_cons_self _ _)))
  · rfl

/-- C8: `getNodeLineNumber` does return `null` for a node without location
metadata, but the reentrancy finding built from such a function node reports
`location.line = 0` (the source computes `getNodeLineNumber(functionNode) || 0`),
so an unknown location is reported as line 0, violating the `line ≥ 1`
invariant. -/
theorem c8_unknown_location_reported_as_line_zero :
    getNodeLineNumber functionWithoutLoc = Option.none
      ∧ checkReentrancyPattern [scenarioCall] [scenarioWrite] functionWithoutLoc
          scenarioSource "Vault.sol"
        = [reentrancyIssue functionWithoutLoc scenarioSource "Vault.sol"]
      ∧ (reentrancyIssue functionWithoutLoc scenarioSource "Vault.sol").location
        = Option.some { line := Option.some 0, file := "Vault.sol" } := by
  refine ⟨rfl, ?_, rfl⟩
  have hsort : (List.filter hasStartLoc ([scenarioCall] ++ [scenarioWrite])).mergeSort sortLe
      = [scenarioCall, scenarioWrite] := by
    have hfilter : List.filter hasStartLoc ([scenarioCall] ++ [scenarioWrite])
        = [scenarioCall, scenarioWrite] := by decide
    rw [hfilter]
    simp [List.mergeSort, List.merge]
    decide
  simp only [checkReentrancyPattern, nodesByPosition, hsort]
  decide

/-- C9: aggregation is additive: with an empty third list, the total is the
sum of the two lengths, the `issues` field is the concatenation of the
inputs, and the histogram counts each severity's occurrences across the
combined list. -/
theorem c9_aggregate_additive :
    ∀ A B : List Issue,
      (aggregate A B []).stats.totalIssues = A.length + B.length
        ∧ (aggregate A B []).issues = A ++ B
        ∧ ∀ s : Severity,
            sevCount (aggregate A B []).stats.issuesBySeverity s
              = ((A ++ B).filter (fun issue => issue.severity = s)).length := by
  intro A B
  refine ⟨?_, ?_, ?_⟩
  · simp [aggregate, calculateStats]
  · simp [aggregate]
  · intro s
    simp only [aggregate, calculateStats]
    rw [sevCount_foldl]
    cases s <;> simp [sevCount]

/-- C10 counterexample: two engines constructed without a custom registry
alias the one module-level `securityRules` array, so `addRule` on the first
is visible to the second: the second engine's rule set changes, and its
`analyze` output on the same input changes accordingly. -/
theorem c10_counterexample_addRule_visible_across_default_engines :
    engineRules (addRule initialHeap engineA reportingRule) engineB
        ≠ engineRules initialHeap engineB
      ∧ engineAnalyze (addRule initialHeap engineA reportingRule) engineB starNode ""
          "Test.sol" {}
        = Except.ok [reportedIssue]
      ∧ engineAnalyze initialHeap engineB starNode "" "Test.sol" {} = Except.ok [] := by
  refine ⟨?_, rfl, rfl⟩
  intro hEq
  have hlen := congrArg List.length hEq
  simp [engineRules, addRule, initialHeap, engineA, engineB, newRuleEngine, securityRules]
    at hlen

/-- C10 amended: isolation does hold between engines whose `rules` fields
reference distinct arrays — in particular engines constructed with their own
custom registries; `addRule` on one leaves the rule set consulted by the
other's `analyze` unchanged. -/
theorem c10_amended_addRule_isolated_for_distinct_registries :
    ∀ (h : RegistryHeap) (e1 e2 : RuleEngineInst) (rule : SecurityRule),
      e1.rulesRef ≠ e2.rulesRef →
      engineRules (addRule h e1 rule) e2 = engineRules h e2 := by
  intro h e1 e2 rule hne
  unfold engineRules addRule
  simp [List.getD_eq_getElem?_getD, List.getElem?_set_ne hne]

/-- C10 amended witness: an engine with its own custom registry (reference 1)
and a default engine (reference 0). -/
theorem c10_amended_witness :
    (newRuleEngineWithRules initialHeap [reportingRule]).2.rulesRef ≠ engineB.rulesRef
      ∧ engineRules
          (addRule (newRuleEngineWithRules initialHeap [reportingRule]).1
            (newRuleEngineWithRules initialHeap [reportingRule]).2 throwingRule) engineB
        = engineRules (newRuleEngineWithRules initialHeap [reportingRule]).1 engineB :=
  ⟨by decide, c10_amended_addRule_isolated_for_distinct_registries _ _ _ _ (by decide)⟩
